import Mathlib

/-!
Verification of the sks-videorag AI-provider layer.

Shallow embedding of:
- `kubrick_mcp/providers/factory.py` (`AIProviderFactory`) and
  `kubrick_api/providers/factory.py` (`AgentProviderFactory`);
- `kubrick_mcp/providers/aws_transcribe.py` (`AWSTranscribeProvider`);
- `kubrick_mcp/tools.py` (`get_video_clip_from_user_query` channel selection);
- `kubrick_api/providers/bedrock.py` (`BedrockChatProvider` message conversion).

External effects (boto3 client creation, S3/Transcribe API calls, SDK
construction) are parametrised by environment records whose boolean flags and
response streams stand for the outcomes of those calls; the control flow is
translated statement by statement from the Python source.
-/

/-- Python `bool(x)` on an optional string setting (`getattr(settings, K, None)`
read through `bool(...)`): `None` and the empty string are falsy. -/
def truthy : Option String → Bool
  | none => false
  | some s => !s.isEmpty

/-- Provider classes appearing in the two factories. -/
inductive PKind
  | bedrockVision
  | openaiVision
  | bedrockEmbeddings
  | openaiEmbeddings
  | awsTranscribe
  | openaiTranscription
  | bedrockChat
  | groqChat
deriving DecidableEq, Repr

/-- A provider instance as the factories observe it: its class together with the
value its `is_available()` returns.  In every provider class of this repository
`is_available()` is exactly "initialize completed successfully" (the
`_initialized` flag plus non-null client handles set in the same step). -/
structure ProviderInst where
  kind : PKind
  available : Bool
deriving DecidableEq, Repr

/-- Exceptions surfacing from the factory layer.  `valueError` is the
`ValueError` raised by `ProviderType(...)` on an unrecognised selector string;
`initError` models each provider's `initialize()` re-raising its wrapped
provider-specific error; `providerUnavailable p m` is
`ProviderUnavailableError(p, m)` — the factories signal exhaustion as
`ProviderUnavailableError("all", "All <capability> providers unavailable")`. -/
inductive PErr
  | valueError (selector : String)
  | initError (provider : String) (msg : String)
  | providerUnavailable (provider : String) (msg : String)
deriving DecidableEq, Repr

/-- `True`/value content of an attempt: the attempt succeeded and the resulting
provider reports available. -/
def attemptAvailable : Except PErr ProviderInst → Bool
  | .ok p => p.available
  | .error _ => false

/-- Whether an `Except` result is a success. -/
def exOk {ε α : Type} : Except ε α → Bool
  | .ok _ => true
  | .error _ => false

deriving instance DecidableEq for Except

/-- ASCII lowering of one character.  The provider selector strings compared
after Python's `str.lower()` are ASCII, for which this agrees with it. -/
def lowerChar (c : Char) : Char :=
  if 'A' ≤ c ∧ c ≤ 'Z' then Char.ofNat (c.toNat + 32) else c

/-- Python `s.lower()` on the ASCII selector strings. -/
def pyLower (s : String) : String := ⟨s.data.map lowerChar⟩

/-! ## MCP factory (`kubrick_mcp/providers/factory.py`) -/

/-- The settings fields that drive control flow in `AIProviderFactory`.
Model identifiers and the region are passed through to constructors without
influencing any branch, so they are omitted. -/
structure McpSettings where
  VISION_PROVIDER : String
  EMBEDDINGS_PROVIDER : String
  OPENAI_API_KEY : Option String
deriving DecidableEq, Repr

/-- Outcomes of the external calls made inside `initialize()` of the providers
the MCP factory can construct.  `OpenAI*` providers' `initialize()` bodies only
set `self._initialized = True` inside a `try:` with no failing statement, so
they have no flag: they always succeed. -/
structure McpEnv where
  bedrockVisionInitOk : Bool
  bedrockEmbeddingsInitOk : Bool
  awsTranscribeInitOk : Bool
deriving DecidableEq, Repr

/-- Per-capability cache slots `_vision_provider`, `_embeddings_provider`,
`_transcription_provider`, all `None` at construction. -/
structure McpState where
  visionProvider : Option ProviderInst := none
  embeddingsProvider : Option ProviderInst := none
  transcriptionProvider : Option ProviderInst := none
deriving DecidableEq, Repr

inductive ProviderType
  | openai
  | bedrock
deriving DecidableEq, Repr

/-- `ProviderType(value)` lookup; `none` models the `ValueError` case. -/
def providerTypeOf : String → Option ProviderType
  | "openai" => some ProviderType.openai
  | "bedrock" => some ProviderType.bedrock
  | _ => none

/-- `BedrockVisionProvider.initialize()`: boto3 client creation either succeeds
(leaving `is_available() = True`) or raises, re-wrapped as `BedrockError`. -/
def initBedrockVision (env : McpEnv) : Except PErr ProviderInst :=
  if env.bedrockVisionInitOk then .ok ⟨.bedrockVision, true⟩
  else .error (.initError "bedrock" "Failed to initialize")

/-- `OpenAIVisionProvider.initialize()` only sets `_initialized = True`. -/
def initOpenAIVision : Except PErr ProviderInst := .ok ⟨.openaiVision, true⟩

def initBedrockEmbeddings (env : McpEnv) : Except PErr ProviderInst :=
  if env.bedrockEmbeddingsInitOk then .ok ⟨.bedrockEmbeddings, true⟩
  else .error (.initError "bedrock" "Failed to initialize")

def initOpenAIEmbeddings : Except PErr ProviderInst := .ok ⟨.openaiEmbeddings, true⟩

/-- `AWSTranscribeProvider.initialize()`: client creation plus
`_ensure_s3_bucket`, either of which can raise `AWSTranscribeError`. -/
def initAWSTranscribe (env : McpEnv) : Except PErr ProviderInst :=
  if env.awsTranscribeInitOk then .ok ⟨.awsTranscribe, true⟩
  else .error (.initError "aws-transcribe" "Failed to initialize")

def initOpenAITranscription : Except PErr ProviderInst := .ok ⟨.openaiTranscription, true⟩

/-- `AIProviderFactory.get_vision_provider`.  Note the source assigns
`self._vision_provider = <Constructor>(...)` *before* awaiting
`initialize()`, so on an initialization failure the slot keeps the
constructed-but-uninitialized instance while the exception propagates. -/
def getVisionProvider (env : McpEnv) (st : McpSettings) (s : McpState) :
    McpState × Except PErr ProviderInst :=
  match s.visionProvider with
  | some p => (s, .ok p)
  | none =>
    match providerTypeOf (pyLower st.VISION_PROVIDER) with
    | none => (s, .error (.valueError st.VISION_PROVIDER))
    | some pt =>
      if pt = ProviderType.bedrock then
        match initBedrockVision env with
        | .ok p => ({ s with visionProvider := some p }, .ok p)
        | .error e => ({ s with visionProvider := some ⟨.bedrockVision, false⟩ }, .error e)
      else
        match initOpenAIVision with
        | .ok p => ({ s with visionProvider := some p }, .ok p)
        | .error e => ({ s with visionProvider := some ⟨.openaiVision, false⟩ }, .error e)

/-- `AIProviderFactory.get_embeddings_provider` (same shape as vision). -/
def getEmbeddingsProvider (env : McpEnv) (st : McpSettings) (s : McpState) :
    McpState × Except PErr ProviderInst :=
  match s.embeddingsProvider with
  | some p => (s, .ok p)
  | none =>
    match providerTypeOf (pyLower st.EMBEDDINGS_PROVIDER) with
    | none => (s, .error (.valueError st.EMBEDDINGS_PROVIDER))
    | some pt =>
      if pt = ProviderType.bedrock then
        match initBedrockEmbeddings env with
        | .ok p => ({ s with embeddingsProvider := some p }, .ok p)
        | .error e => ({ s with embeddingsProvider := some ⟨.bedrockEmbeddings, false⟩ }, .error e)
      else
        match initOpenAIEmbeddings with
        | .ok p => ({ s with embeddingsProvider := some p }, .ok p)
        | .error e => ({ s with embeddingsProvider := some ⟨.openaiEmbeddings, false⟩ }, .error e)

/-- `AIProviderFactory.get_transcription_provider`: chooses OpenAI when
`bool(OPENAI_API_KEY)` is truthy, AWS Transcribe otherwise; assigns the slot
before initializing, as above. -/
def getTranscriptionProvider (env : McpEnv) (st : McpSettings) (s : McpState) :
    McpState × Except PErr ProviderInst :=
  match s.transcriptionProvider with
  | some p => (s, .ok p)
  | none =>
    if truthy st.OPENAI_API_KEY then
      match initOpenAITranscription with
      | .ok p => ({ s with transcriptionProvider := some p }, .ok p)
      | .error e => ({ s with transcriptionProvider := some ⟨.openaiTranscription, false⟩ }, .error e)
    else
      match initAWSTranscribe env with
      | .ok p => ({ s with transcriptionProvider := some p }, .ok p)
      | .error e => ({ s with transcriptionProvider := some ⟨.awsTranscribe, false⟩ }, .error e)

/-- Observable event: a fallback getter constructed (attempted) a secondary
provider of the given class. -/
inductive FEvent
  | secondaryAttempt (kind : PKind)
deriving DecidableEq, Repr

/-- `AIProviderFactory.get_vision_provider_with_fallback`: primary getter under
a blanket `except Exception`; the OpenAI fallback is constructed and
initialized unconditionally (no `OPENAI_API_KEY` check); all failures end in
`ProviderUnavailableError("all", "All vision providers unavailable")`. -/
def getVisionProviderWithFallback (env : McpEnv) (st : McpSettings) (s : McpState) :
    McpState × List FEvent × Except PErr ProviderInst :=
  let (s1, r) := getVisionProvider env st s
  match r with
  | .ok p =>
    if p.available then (s1, [], .ok p)
    else
      match initOpenAIVision with
      | .ok fb =>
        if fb.available then (s1, [.secondaryAttempt .openaiVision], .ok fb)
        else (s1, [.secondaryAttempt .openaiVision],
              .error (.providerUnavailable "all" "All vision providers unavailable"))
      | .error _ => (s1, [.secondaryAttempt .openaiVision],
              .error (.providerUnavailable "all" "All vision providers unavailable"))
  | .error _ =>
      match initOpenAIVision with
      | .ok fb =>
        if fb.available then (s1, [.secondaryAttempt .openaiVision], .ok fb)
        else (s1, [.secondaryAttempt .openaiVision],
              .error (.providerUnavailable "all" "All vision providers unavailable"))
      | .error _ => (s1, [.secondaryAttempt .openaiVision],
              .error (.providerUnavailable "all" "All vision providers unavailable"))

/-- `AIProviderFactory.get_embeddings_provider_with_fallback`. -/
def getEmbeddingsProviderWithFallback (env : McpEnv) (st : McpSettings) (s : McpState) :
    McpState × List FEvent × Except PErr ProviderInst :=
  let (s1, r) := getEmbeddingsProvider env st s
  let fallback : List FEvent × Except PErr ProviderInst :=
    match initOpenAIEmbeddings with
    | .ok fb =>
      if fb.available then ([.secondaryAttempt .openaiEmbeddings], .ok fb)
      else ([.secondaryAttempt .openaiEmbeddings],
            .error (.providerUnavailable "all" "All embeddings providers unavailable"))
    | .error _ => ([.secondaryAttempt .openaiEmbeddings],
            .error (.providerUnavailable "all" "All embeddings providers unavailable"))
  match r with
  | .ok p => if p.available then (s1, [], .ok p) else (s1, fallback.1, fallback.2)
  | .error _ => (s1, fallback.1, fallback.2)

/-- `AIProviderFactory.get_transcription_provider_with_fallback`: the secondary
branch mirrors the primary selection, *reversed*; with no OpenAI key the
OpenAI fallback is still constructed ("if key becomes available"). -/
def getTranscriptionProviderWithFallback (env : McpEnv) (st : McpSettings) (s : McpState) :
    McpState × List FEvent × Except PErr ProviderInst :=
  let (s1, r) := getTranscriptionProvider env st s
  let fallback : List FEvent × Except PErr ProviderInst :=
    if truthy st.OPENAI_API_KEY then
      match initAWSTranscribe env with
      | .ok fb =>
        if fb.available then ([.secondaryAttempt .awsTranscribe], .ok fb)
        else ([.secondaryAttempt .awsTranscribe],
              .error (.providerUnavailable "all" "All transcription providers unavailable"))
      | .error _ => ([.secondaryAttempt .awsTranscribe],
              .error (.providerUnavailable "all" "All transcription providers unavailable"))
    else
      match initOpenAITranscription with
      | .ok fb =>
        if fb.available then ([.secondaryAttempt .openaiTranscription], .ok fb)
        else ([.secondaryAttempt .openaiTranscription],
              .error (.providerUnavailable "all" "All transcription providers unavailable"))
      | .error _ => ([.secondaryAttempt .openaiTranscription],
              .error (.providerUnavailable "all" "All transcription providers unavailable"))
  match r with
  | .ok p => if p.available then (s1, [], .ok p) else (s1, fallback.1, fallback.2)
  | .error _ => (s1, fallback.1, fallback.2)

/-! ## API factory (`kubrick_api/providers/factory.py`) -/

/-- Control-flow-relevant fields of the API settings object. -/
structure ApiSettings where
  AGENT_PROVIDER : String
  GROQ_API_KEY : Option String
deriving DecidableEq, Repr

/-- Outcome of `boto3.client("bedrock-runtime", ...)` in
`BedrockChatProvider.initialize()`. -/
structure ApiEnv where
  bedrockChatInitOk : Bool
deriving DecidableEq, Repr

/-- The `_chat_provider` cache slot. -/
structure ApiState where
  chatProvider : Option ProviderInst := none
deriving DecidableEq, Repr

def initBedrockChat (env : ApiEnv) : Except PErr ProviderInst :=
  if env.bedrockChatInitOk then .ok ⟨.bedrockChat, true⟩
  else .error (.initError "bedrock" "Failed to initialize")

/-- `GroqChatProvider.initialize()` constructs `Groq(api_key=...)`, which
raises exactly when the key argument is `None` (and no ambient environment
variable supplies one — the model has no ambient environment). -/
def initGroqChat : Option String → Except PErr ProviderInst
  | some _ => .ok ⟨.groqChat, true⟩
  | none => .error (.initError "groq" "Failed to initialize")

/-- The API factory's own `ProviderType` enum: `GROQ = "groq"`,
`BEDROCK = "bedrock"` (distinct from the MCP factory's `openai`/`bedrock`
enum). -/
inductive AgentProviderType
  | groq
  | bedrock
deriving DecidableEq, Repr

/-- The API factory's `ProviderType(value)` lookup; `none` models the
`ValueError` case. -/
def agentProviderTypeOf : String → Option AgentProviderType
  | "groq" => some AgentProviderType.groq
  | "bedrock" => some AgentProviderType.bedrock
  | _ => none

/-- `AgentProviderFactory.get_chat_provider`; slot assigned before
`initialize()` as in the MCP factory.  The selector is resolved through the
API factory's own enum (`groq`/`bedrock`): `BEDROCK` takes the Bedrock branch
and the `else` branch constructs the Groq provider. -/
def getChatProvider (env : ApiEnv) (st : ApiSettings) (s : ApiState) :
    ApiState × Except PErr ProviderInst :=
  match s.chatProvider with
  | some p => (s, .ok p)
  | none =>
    match agentProviderTypeOf (pyLower st.AGENT_PROVIDER) with
    | none => (s, .error (.valueError st.AGENT_PROVIDER))
    | some pt =>
      if pt = AgentProviderType.bedrock then
        match initBedrockChat env with
        | .ok p => ({ s with chatProvider := some p }, .ok p)
        | .error e => ({ s with chatProvider := some ⟨.bedrockChat, false⟩ }, .error e)
      else
        match initGroqChat st.GROQ_API_KEY with
        | .ok p => ({ s with chatProvider := some p }, .ok p)
        | .error e => ({ s with chatProvider := some ⟨.groqChat, false⟩ }, .error e)

/-- `AgentProviderFactory.get_chat_provider_with_fallback`: the Groq secondary
is attempted only when `bool(GROQ_API_KEY)` is truthy; otherwise the skip is
logged and the exhaustion error is raised directly. -/
def getChatProviderWithFallback (env : ApiEnv) (st : ApiSettings) (s : ApiState) :
    ApiState × List FEvent × Except PErr ProviderInst :=
  let (s1, r) := getChatProvider env st s
  let fallback : List FEvent × Except PErr ProviderInst :=
    if truthy st.GROQ_API_KEY then
      match initGroqChat st.GROQ_API_KEY with
      | .ok fb =>
        if fb.available then ([.secondaryAttempt .groqChat], .ok fb)
        else ([.secondaryAttempt .groqChat],
              .error (.providerUnavailable "all" "All chat providers unavailable"))
      | .error _ => ([.secondaryAttempt .groqChat],
              .error (.providerUnavailable "all" "All chat providers unavailable"))
    else
      ([], .error (.providerUnavailable "all" "All chat providers unavailable"))
  match r with
  | .ok p => if p.available then (s1, [], .ok p) else (s1, fallback.1, fallback.2)
  | .error _ => (s1, fallback.1, fallback.2)

/-! ## AWS Transcribe job poller (`kubrick_mcp/providers/aws_transcribe.py`) -/

/-- Fields of a `get_transcription_job` response the wait loop reads:
`TranscriptionJobStatus`, `FailureReason` (read with `.get(..., 'Unknown
error')`), and `Transcript.TranscriptFileUri`. -/
structure PollResponse where
  status : String
  failureReason : Option String
  transcriptUri : String
deriving DecidableEq, Repr

/-- Errors raised by `transcribe_audio` / `_wait_for_transcription_job`, all
`AWSTranscribeError` or `ProviderUnavailableError` instances distinguished by
their message shape in the source. -/
inductive AwsErr
  | notAvailable
  | transcriptionApiError (msg : String)
  | jobFailed (reason : String)
  | jobStatusCheckError (msg : String)
  | jobTimedOut (jobName : String) (maxWait : Nat)
  | transcriptDownloadError (msg : String)
  | unexpectedWrap (inner : AwsErr)
deriving DecidableEq, Repr

/-- Outbound AWS calls the provider issues (polling reads omitted). -/
inductive AwsCall
  | putObject (key : String)
  | startJob (jobName : String)
  | deleteJob (jobName : String)
  | deleteObject (key : String)
deriving DecidableEq, Repr

/-- Environment of one `transcribe_audio` call: the generated job id, the
outcomes of the S3 upload and of `start_transcription_job`, the stream of
`get_transcription_job` responses (the i-th poll's outcome; `.error` models a
`ClientError` from the status query), and the transcript download. -/
structure TransEnv where
  jobId : String
  putObjectOk : Bool
  startJobOk : Bool
  polls : Nat → Except String PollResponse
  download : String → Except String String

/-- The `TranscriptionResponse` pydantic model. -/
structure TranscriptionResponse where
  text : String
  language : Option String
  provider : String
deriving DecidableEq, Repr

/-- One turn of the wait loop in `_wait_for_transcription_job`, indexed by the
poll counter `i` (elapsed wall time is `5*i` seconds: only the
`await asyncio.sleep(5)` advances the clock in the model) and by the remaining
iteration budget `fuel`.  Fuel exhaustion is exactly the
`time.time() - start_time < max_wait_time` guard failing, which raises the
timeout error naming the job.  On `COMPLETED` the transcript is downloaded and
then the job is deleted (best-effort: a delete failure is only logged, so the
call itself is the observable); on `FAILED` the loop raises with the failure
reason and performs no delete; a `ClientError` from the status query raises. -/
def waitIter (env : TransEnv) (jobName : String) (maxWait : Nat) :
    Nat → Nat → List AwsCall × Except AwsErr String
  | _, 0 => ([], .error (.jobTimedOut jobName maxWait))
  | i, fuel + 1 =>
    match env.polls i with
    | .error msg => ([], .error (.jobStatusCheckError msg))
    | .ok r =>
      if r.status = "COMPLETED" then
        match env.download r.transcriptUri with
        | .ok t => ([.deleteJob jobName], .ok t)
        | .error m => ([], .error (.transcriptDownloadError m))
      else if r.status = "FAILED" then
        ([], .error (.jobFailed (r.failureReason.getD "Unknown error")))
      else
        waitIter env jobName maxWait (i + 1) fuel

/-- `_wait_for_transcription_job(job_name, max_wait_time)`.  The Python loop
runs its i-th iteration exactly when `5*i < max_wait_time`, i.e. for
`⌈max_wait_time / 5⌉` iterations, which is the fuel supplied here. -/
def waitForTranscriptionJob (env : TransEnv) (jobName : String)
    (maxWait : Nat := 300) : List AwsCall × Except AwsErr String :=
  waitIter env jobName maxWait 0 ((maxWait + 4) / 5)

/-- `transcribe_audio(audio, model)`: guard on `is_available()`, upload the
payload to `temp-audio/<job>.mp3`, start the job, wait; on success best-effort
delete the S3 object and return the response; `ClientError` from upload/start
is wrapped as a transcription API error, and any `AWSTranscribeError` escaping
the wait loop is caught by the blanket `except Exception` clause and re-wrapped
as an "Unexpected error". -/
def transcribeAudioCall (env : TransEnv) (available : Bool)
    (maxWait : Nat := 300) : List AwsCall × Except AwsErr TranscriptionResponse :=
  if !available then ([], .error .notAvailable)
  else
    let jobName := "kubrick-transcribe-" ++ env.jobId
    let s3Key := "temp-audio/" ++ jobName ++ ".mp3"
    if !env.putObjectOk then
      ([.putObject s3Key], .error (.transcriptionApiError "put_object failed"))
    else if !env.startJobOk then
      ([.putObject s3Key, .startJob jobName],
       .error (.transcriptionApiError "start_transcription_job failed"))
    else
      match waitForTranscriptionJob env jobName maxWait with
      | (calls, .ok text) =>
        ([.putObject s3Key, .startJob jobName] ++ calls ++ [.deleteObject s3Key],
         .ok { text := text, language := some "en-US", provider := "aws-transcribe" })
      | (calls, .error e) =>
        ([.putObject s3Key, .startJob jobName] ++ calls, .error (.unexpectedWrap e))

/-! ## Retrieval channel selection (`kubrick_mcp/tools.py`) -/

/-- A search-engine hit as consumed by `get_video_clip_from_user_query`:
the dict fields it reads are `similarity`, `start_time`, `end_time`. -/
structure ClipResult where
  similarity : ℚ
  start_time : ℚ
  end_time : ℚ
deriving DecidableEq, Repr

/-- The only failure the selection code can produce: `IndexError` from
`[0]`-indexing an empty result list. -/
inductive RankErr
  | indexError
deriving DecidableEq, Repr

/-- The channel-selection core of `get_video_clip_from_user_query`:
`speech_sim`/`caption_sim` default a missing channel to `0`, and
`video_clip_info = speech_clips[0] if speech_sim > caption_sim else
caption_clips[0]`. -/
def selectClipInfo (speech_clips caption_clips : List ClipResult) :
    Except RankErr ClipResult :=
  let speech_sim : ℚ := match speech_clips with
    | [] => 0
    | c :: _ => c.similarity
  let caption_sim : ℚ := match caption_clips with
    | [] => 0
    | c :: _ => c.similarity
  if speech_sim > caption_sim then
    match speech_clips with
    | [] => .error .indexError
    | c :: _ => .ok c
  else
    match caption_clips with
    | [] => .error .indexError
    | c :: _ => .ok c

/-! ## Bedrock chat message conversion (`kubrick_api/providers/bedrock.py`) -/

/-- One element of a multi-part message content list, keyed by its
`item.get("type")`. -/
inductive ContentPart
  | textPart (text : String)
  | imageUrlPart (url : String)
  | otherPart
deriving DecidableEq, Repr

/-- The `content` value of an incoming message: a plain string, a list of
parts, or anything else (converted through `str(content)`). -/
inductive MessageContent
  | str (text : String)
  | parts (items : List ContentPart)
  | other (asString : String)
deriving DecidableEq, Repr

/-- An incoming generic chat message; `role` is `message.get("role")`. -/
structure ChatMessage where
  role : Option String
  content : MessageContent
deriving DecidableEq, Repr

/-- A Claude-format content block produced by the conversion. -/
inductive ClaudeBlock
  | textBlock (text : String)
  | imageBlock (mediaType : String) (data : String)
deriving DecidableEq, Repr

/-- A converted message as appended to `claude_messages`. -/
structure ClaudeMessage where
  role : Option String
  content : List ClaudeBlock
deriving DecidableEq, Repr

/-- Python exceptions reachable inside the content conversion:
`ValueError` from unpacking `image_url.split(",", 1)` into two names when the
url has no comma, `IndexError` from `split(":")[1]` with no colon. -/
inductive ConvertErr
  | valueErrorUnpack
  | indexErrorMediaType
deriving DecidableEq, Repr

/-- Python `s.split(sep, 1)`: at most one split, at the first occurrence. -/
def splitLimitOne (s sep : String) : List String :=
  match s.splitOn sep with
  | [] => []
  | [x] => [x]
  | x :: rest => [x, String.intercalate sep rest]

/-- The `image_url` branch: urls starting with `data:image` are unpacked as
`media_type, data = image_url.split(",", 1)` and the media type is
`media_type.split(";")[0].split(":")[1]`; other urls append nothing. -/
def convertImagePart (url : String) : Except ConvertErr (List ClaudeBlock) :=
  if url.startsWith "data:image" then
    match splitLimitOne url "," with
    | [mt, data] =>
      match ((mt.splitOn ";").headD "").splitOn ":" with
      | _ :: mediaType :: _ => .ok [.imageBlock mediaType data]
      | _ => .error .indexErrorMediaType
    | _ => .error .valueErrorUnpack
  else
    .ok []

/-- Conversion of a single content item inside a list-valued `content`:
`"text"` items become text blocks, `"image_url"` items go through
`convertImagePart`, anything else is dropped. -/
def convertPart : ContentPart → Except ConvertErr (List ClaudeBlock)
  | .textPart t => .ok [.textBlock t]
  | .imageUrlPart url => convertImagePart url
  | .otherPart => .ok []

/-- Conversion of a message's `content` value to `claude_content`. -/
def convertContent : MessageContent → Except ConvertErr (List ClaudeBlock)
  | .str t => .ok [.textBlock t]
  | .parts items => do
      let ls ← items.mapM convertPart
      return ls.flatten
  | .other s => .ok [.textBlock s]

/-- `BedrockChatProvider._convert_messages_to_claude_format`: iterates over the
messages in order, `continue`s on `role == "system"` (the system content is
dropped, not moved anywhere), and otherwise appends
`{"role": role, "content": claude_content}`. -/
def convertMessagesToClaudeFormat : List ChatMessage → Except ConvertErr (List ClaudeMessage)
  | [] => .ok []
  | m :: rest =>
    if m.role = some "system" then convertMessagesToClaudeFormat rest
    else do
      let cc ← convertContent m.content
      let tail ← convertMessagesToClaudeFormat rest
      return ⟨m.role, cc⟩ :: tail

/-- The inference configuration extracted from kwargs in `chat_completion`. -/
structure InferenceConfig where
  maxTokens : Nat
  temperature : ℚ
  topP : ℚ
deriving DecidableEq, Repr

/-- The keyword arguments `chat_completion` passes to `client.converse`:
`modelId`, `messages`, `inferenceConfig` — and nothing else; in particular no
`system` field exists in the request. -/
structure ConverseRequest where
  modelId : String
  messages : List ClaudeMessage
  inferenceConfig : InferenceConfig
deriving DecidableEq, Repr

/-- The request-building prefix of `BedrockChatProvider.chat_completion`. -/
def buildConverseRequest (modelId : String) (msgs : List ChatMessage)
    (cfg : InferenceConfig) : Except ConvertErr ConverseRequest := do
  let cm ← convertMessagesToClaudeFormat msgs
  return ⟨modelId, cm, cfg⟩

/-! ## Helper definitions for the claim statements -/

/-- A fallback getter's result is "settled": either an available provider is
returned, or the exhaustion error `ProviderUnavailableError("all", msg)` with
the capability's message is raised. -/
def fallbackSettled (msg : String) : Except PErr ProviderInst → Prop
  | .ok p => p.available = true
  | .error e => e = .providerUnavailable "all" msg

/-- The primary attempt of the vision fallback getter yields an available
provider. -/
def visionPrimaryOk (env : McpEnv) (st : McpSettings) (s : McpState) : Bool :=
  attemptAvailable (getVisionProvider env st s).2

def embeddingsPrimaryOk (env : McpEnv) (st : McpSettings) (s : McpState) : Bool :=
  attemptAvailable (getEmbeddingsProvider env st s).2

def transcriptionPrimaryOk (env : McpEnv) (st : McpSettings) (s : McpState) : Bool :=
  attemptAvailable (getTranscriptionProvider env st s).2

def chatPrimaryOk (env : ApiEnv) (st : ApiSettings) (s : ApiState) : Bool :=
  attemptAvailable (getChatProvider env st s).2

/-- The secondary the vision fallback would construct (the OpenAI vision
provider) can be constructed, initialized, and reports available. -/
def visionSecondaryOk : Bool := attemptAvailable initOpenAIVision

def embeddingsSecondaryOk : Bool := attemptAvailable initOpenAIEmbeddings

/-- The transcription fallback's secondary is AWS Transcribe when an OpenAI key
is configured and the OpenAI provider otherwise. -/
def transcriptionSecondaryOk (env : McpEnv) (st : McpSettings) : Bool :=
  if truthy st.OPENAI_API_KEY then attemptAvailable (initAWSTranscribe env)
  else attemptAvailable initOpenAITranscription

/-- The chat fallback's Groq secondary: only constructible when a (truthy) key
is configured. -/
def chatSecondaryOk (st : ApiSettings) : Bool :=
  truthy st.GROQ_API_KEY && attemptAvailable (initGroqChat st.GROQ_API_KEY)

/-- A settings object with Bedrock selected everywhere and no OpenAI key. -/
def mcpBedrockSettings : McpSettings := ⟨"bedrock", "bedrock", none⟩

/-- An environment in which every fallible `initialize()` fails. -/
def mcpAllInitFail : McpEnv := ⟨false, false, false⟩

/-- Poll stream that always reports a job still in progress. -/
def pollsInProgress : Nat → Except String PollResponse :=
  fun _ => .ok ⟨"IN_PROGRESS", none, ""⟩

/-- A transcription call whose job never terminates. -/
def envTimeout : TransEnv :=
  ⟨"j", true, true, pollsInProgress, fun _ => .error "no download"⟩

/-- A transcription call whose job fails on the first poll. -/
def envFailedJob : TransEnv :=
  ⟨"j", true, true, fun _ => .ok ⟨"FAILED", some "Internal failure", ""⟩,
   fun _ => .error "no download"⟩

/-- A transcription call whose job is in progress once and then completes. -/
def envCompleted : TransEnv :=
  ⟨"j", true, true,
   fun i => if i = 0 then .ok ⟨"IN_PROGRESS", none, ""⟩ else .ok ⟨"COMPLETED", none, "uri"⟩,
   fun u => if u = "uri" then .ok "hello transcript" else .error "missing"⟩

/-! ## C5, C6 — retrieval channel selection -/

/-- C5 (counterexample): with both channels empty,
`get_video_clip_from_user_query`'s selection fails with the `IndexError` from
`caption_clips[0]`, not with a `NoCandidatesError` (no such error exists
anywhere in the repository). -/
theorem c5_empty_channels_index_error :
    selectClipInfo [] [] = .error .indexError := rfl

/-- C5 (amended): the selection succeeds whenever some channel's top candidate
has similarity > 0; when both channels are empty it fails with `IndexError`.
-/
theorem c5_selection_amended :
    (∀ (s : ClipResult) (ss caption : List ClipResult),
      0 < s.similarity → exOk (selectClipInfo (s :: ss) caption) = true)
    ∧ (∀ (speech : List ClipResult) (c : ClipResult) (cs : List ClipResult),
      0 < c.similarity → exOk (selectClipInfo speech (c :: cs)) = true)
    ∧ selectClipInfo [] [] = .error .indexError := by
  refine ⟨?_, ?_, rfl⟩
  · intro s ss caption hs
    cases caption with
    | nil =>
      simp only [selectClipInfo]
      rw [if_pos (by simpa using hs)]
      rfl
    | cons c cs =>
      simp only [selectClipInfo]
      split <;> rfl
  · intro speech c cs hc
    cases speech with
    | nil =>
      simp only [selectClipInfo]
      rw [if_neg (by simpa using not_lt.mpr hc.le)]
      rfl
    | cons s ss =>
      simp only [selectClipInfo]
      split <;> rfl

/-- C5 (witness for the amended theorem at concrete inputs). -/
theorem c5_selection_amended_witness :
    exOk (selectClipInfo [⟨1, 0, 1⟩] []) = true
    ∧ exOk (selectClipInfo [] [⟨1, 2, 3⟩]) = true :=
  ⟨c5_selection_amended.1 ⟨1, 0, 1⟩ [] [] (by norm_num),
   c5_selection_amended.2.1 [] ⟨1, 2, 3⟩ [] (by norm_num)⟩

/-- C6 (counterexample): with equal top-1 similarities the selection returns
the *caption* candidate, not the speech candidate the claim promises. -/
theorem c6_tie_goes_to_caption :
    selectClipInfo [⟨1, 0, 1⟩] [⟨1, 2, 3⟩] = .ok ⟨1, 2, 3⟩
    ∧ (⟨1, 2, 3⟩ : ClipResult) ≠ ⟨1, 0, 1⟩ := by
  constructor
  · simp only [selectClipInfo]
    rw [if_neg (lt_irrefl (1 : ℚ))]
  · intro h
    have h2 : (2 : ℚ) = 0 := congrArg ClipResult.start_time h
    norm_num at h2

/-- C6 (amended): for nonempty channels the speech candidate is selected
exactly when its top-1 similarity is strictly greater; equal similarities fall
into the `else` branch and yield the caption candidate. -/
theorem c6_strict_selection_amended :
    ∀ (s c : ClipResult) (ss cs : List ClipResult),
      selectClipInfo (s :: ss) (c :: cs) =
        if c.similarity < s.similarity then .ok s else .ok c := by
  intro s c ss cs
  simp only [selectClipInfo, gt_iff_lt]

/-! ## C10 — Bedrock chat message conversion -/

/-- C10: `_convert_messages_to_claude_format` is exactly "drop the system
messages, convert the rest in their original order"; and `chat_completion`'s
converse request consists of the model id, those converted messages and the
inference configuration only — the system content is not hoisted into any
field of the request. -/
theorem c10_system_messages_discarded :
    (∀ ms : List ChatMessage,
      convertMessagesToClaudeFormat ms =
        (ms.filter (fun m => m.role ≠ some "system")).mapM
          (fun m => (convertContent m.content).map (fun cc => ClaudeMessage.mk m.role cc)))
    ∧ (∀ (modelId : String) (cfg : InferenceConfig) (ms : List ChatMessage),
      buildConverseRequest modelId ms cfg =
        (convertMessagesToClaudeFormat ms).map (fun cm => ConverseRequest.mk modelId cm cfg)) := by
  constructor
  · intro ms
    induction ms with
    | nil => rfl
    | cons m rest ih =>
      by_cases hrole : m.role = some "system"
      · simp [convertMessagesToClaudeFormat, hrole, List.filter_cons, ih]
      · simp only [convertMessagesToClaudeFormat]
        rw [if_neg hrole]
        have hfilter : ((m :: rest).filter fun x => x.role ≠ some "system")
            = m :: (rest.filter fun x => x.role ≠ some "system") := by
          simp [List.filter_cons, hrole]
        rw [hfilter, List.mapM_cons]
        simp only [← ih]
        cases hc : convertContent m.content with
        | ok cc =>
          cases hrest : convertMessagesToClaudeFormat rest with
          | ok tail => rfl
          | error e => rfl
        | error e => rfl
  · intro modelId cfg ms
    cases h : convertMessagesToClaudeFormat ms with
    | ok cm =>
      unfold buildConverseRequest
      rw [h]
      rfl
    | error e =>
      unfold buildConverseRequest
      rw [h]
      rfl

/-! ## C7, C8, C9 — transcription job poller -/

/-- If polls `i, …, i+k-1` are non-terminal and poll `i+k` is `COMPLETED` with
a downloadable transcript, the wait loop (with enough fuel) deletes the job
and returns the transcript. -/
theorem waitIter_completes (env : TransEnv) (jobName : String) (maxWait : Nat) :
    ∀ (k i fuel : Nat), k < fuel →
      (∀ j, j < k → ∃ q, env.polls (i + j) = .ok q
          ∧ q.status ≠ "COMPLETED" ∧ q.status ≠ "FAILED") →
      ∀ r, env.polls (i + k) = .ok r → r.status = "COMPLETED" →
      ∀ t, env.download r.transcriptUri = .ok t →
      waitIter env jobName maxWait i fuel = ([.deleteJob jobName], .ok t) := by
  intro k
  induction k with
  | zero =>
    intro i fuel hf hpre r hr hst t hdl
    match fuel, hf with
    | fuel + 1, _ =>
      rw [Nat.add_zero] at hr
      simp [waitIter, hr, hst, hdl]
  | succ k ih =>
    intro i fuel hf hpre r hr hst t hdl
    match fuel, hf with
    | fuel + 1, hf =>
      obtain ⟨q, hq, hq1, hq2⟩ := hpre 0 (Nat.succ_pos k)
      rw [Nat.add_zero] at hq
      simp only [waitIter, hq]
      rw [if_neg (by simpa using hq1), if_neg (by simpa using hq2)]
      refine ih (i + 1) fuel (by omega) ?_ r ?_ hst t hdl
      · intro j hj
        have := hpre (j + 1) (by omega)
        simpa [show i + (j + 1) = i + 1 + j by omega] using this
      · simpa [show i + (k + 1) = i + 1 + k by omega] using hr

/-- If every poll the fuel allows is non-terminal, the wait loop times out
without issuing any call. -/
theorem waitIter_times_out (env : TransEnv) (jobName : String) (maxWait : Nat) :
    ∀ (fuel i : Nat),
      (∀ j, j < fuel → ∃ q, env.polls (i + j) = .ok q
          ∧ q.status ≠ "COMPLETED" ∧ q.status ≠ "FAILED") →
      waitIter env jobName maxWait i fuel = ([], .error (.jobTimedOut jobName maxWait)) := by
  intro fuel
  induction fuel with
  | zero => intro i _; rfl
  | succ fuel ih =>
    intro i hpre
    obtain ⟨q, hq, hq1, hq2⟩ := hpre 0 (Nat.succ_pos fuel)
    rw [Nat.add_zero] at hq
    simp only [waitIter, hq]
    rw [if_neg (by simpa using hq1), if_neg (by simpa using hq2)]
    refine ih (i + 1) ?_
    intro j hj
    have := hpre (j + 1) (by omega)
    simpa [show i + (j + 1) = i + 1 + j by omega] using this

/-- If polls `i, …, i+k-1` are non-terminal and poll `i+k` is `FAILED`, the
wait loop (with enough fuel) raises the job-failure error carrying the failure
reason and issues no call at all. -/
theorem waitIter_fails (env : TransEnv) (jobName : String) (maxWait : Nat) :
    ∀ (k i fuel : Nat), k < fuel →
      (∀ j, j < k → ∃ q, env.polls (i + j) = .ok q
          ∧ q.status ≠ "COMPLETED" ∧ q.status ≠ "FAILED") →
      ∀ r, env.polls (i + k) = .ok r → r.status = "FAILED" →
      waitIter env jobName maxWait i fuel
        = ([], .error (.jobFailed (r.failureReason.getD "Unknown error"))) := by
  intro k
  induction k with
  | zero =>
    intro i fuel hf hpre r hr hst
    match fuel, hf with
    | fuel + 1, _ =>
      rw [Nat.add_zero] at hr
      simp [waitIter, hr, hst]
  | succ k ih =>
    intro i fuel hf hpre r hr hst
    match fuel, hf with
    | fuel + 1, hf =>
      obtain ⟨q, hq, hq1, hq2⟩ := hpre 0 (Nat.succ_pos k)
      rw [Nat.add_zero] at hq
      simp only [waitIter, hq]
      rw [if_neg (by simpa using hq1), if_neg (by simpa using hq2)]
      refine ih (i + 1) fuel (by omega) ?_ r ?_ hst
      · intro j hj
        have := hpre (j + 1) (by omega)
        simpa [show i + (j + 1) = i + 1 + j by omega] using this
      · simpa [show i + (k + 1) = i + 1 + k by omega] using hr

/-- C7: a transcription job whose polled status sequence reaches `COMPLETED`
strictly before the `max_wait_time` deadline makes `transcribe_audio` return
the transcript parsed from the result payload, and the call issues delete
calls for both the transcription job and the uploaded audio object. -/
theorem c7_completed_job_returns_and_cleans (env : TransEnv) (maxWait k : Nat)
    (r : PollResponse) (text : String)
    (hput : env.putObjectOk = true) (hstart : env.startJobOk = true)
    (hk : 5 * k < maxWait)
    (hpre : ∀ j, j < k → ∃ q, env.polls j = .ok q
        ∧ q.status ≠ "COMPLETED" ∧ q.status ≠ "FAILED")
    (hit : env.polls k = .ok r) (hst : r.status = "COMPLETED")
    (hdl : env.download r.transcriptUri = .ok text) :
    transcribeAudioCall env true maxWait =
      ([.putObject ("temp-audio/" ++ ("kubrick-transcribe-" ++ env.jobId) ++ ".mp3"),
        .startJob ("kubrick-transcribe-" ++ env.jobId),
        .deleteJob ("kubrick-transcribe-" ++ env.jobId),
        .deleteObject ("temp-audio/" ++ ("kubrick-transcribe-" ++ env.jobId) ++ ".mp3")],
       .ok ⟨text, some "en-US", "aws-transcribe"⟩) := by
  have hwait : waitForTranscriptionJob env ("kubrick-transcribe-" ++ env.jobId) maxWait
      = ([.deleteJob ("kubrick-transcribe-" ++ env.jobId)], .ok text) := by
    refine waitIter_completes env _ maxWait k 0 ((maxWait + 4) / 5) (by omega) ?_ r ?_ hst text hdl
    · intro j hj
      simpa using hpre j hj
    · simpa using hit
  simp [transcribeAudioCall, hput, hstart, hwait]

/-- C7 (witness): a concrete job that is in progress once and then completes
within the 300-second deadline. -/
theorem c7_witness :
    transcribeAudioCall envCompleted true 300 =
      ([.putObject ("temp-audio/" ++ ("kubrick-transcribe-" ++ envCompleted.jobId) ++ ".mp3"),
        .startJob ("kubrick-transcribe-" ++ envCompleted.jobId),
        .deleteJob ("kubrick-transcribe-" ++ envCompleted.jobId),
        .deleteObject ("temp-audio/" ++ ("kubrick-transcribe-" ++ envCompleted.jobId) ++ ".mp3")],
       .ok ⟨"hello transcript", some "en-US", "aws-transcribe"⟩) :=
  c7_completed_job_returns_and_cleans envCompleted 300 1 ⟨"COMPLETED", none, "uri"⟩
    "hello transcript" rfl rfl (by norm_num)
    (fun j hj => by
      interval_cases j
      exact ⟨⟨"IN_PROGRESS", none, ""⟩, rfl, by decide, by decide⟩)
    rfl rfl rfl

/-- C9: if the deadline elapses before the job reaches a terminal status, the
wait loop raises the timeout error naming the job and issues no delete call
(the calls list is empty). -/
theorem c9_timeout_no_delete (env : TransEnv) (jobName : String) (maxWait : Nat)
    (h : ∀ j, 5 * j < maxWait → ∃ q, env.polls j = .ok q
        ∧ q.status ≠ "COMPLETED" ∧ q.status ≠ "FAILED") :
    waitForTranscriptionJob env jobName maxWait
      = ([], .error (.jobTimedOut jobName maxWait)) := by
  refine waitIter_times_out env jobName maxWait ((maxWait + 4) / 5) 0 ?_
  intro j hj
  simpa using h j (by omega)

/-- C9 (witness): a job that never terminates against a 7-second deadline. -/
theorem c9_witness :
    waitForTranscriptionJob envTimeout "job" 7 = ([], .error (.jobTimedOut "job" 7)) :=
  c9_timeout_no_delete envTimeout "job" 7
    (fun j hj => ⟨⟨"IN_PROGRESS", none, ""⟩, rfl, by decide, by decide⟩)

/-- C8 (counterexample): a job that fails on the first poll.  `transcribe_audio`
raises the job-failure error carrying the reason, but — contrary to the claim —
issues **no** delete call for the transcription job nor for the uploaded audio
object: the only calls made are the upload and the job start. -/
theorem c8_failed_job_counterexample :
    transcribeAudioCall envFailedJob true 300 =
      ([.putObject "temp-audio/kubrick-transcribe-j.mp3",
        .startJob "kubrick-transcribe-j"],
       .error (.unexpectedWrap (.jobFailed "Internal failure")))
    ∧ AwsCall.deleteJob "kubrick-transcribe-j"
        ∉ (transcribeAudioCall envFailedJob true 300).1
    ∧ AwsCall.deleteObject "temp-audio/kubrick-transcribe-j.mp3"
        ∉ (transcribeAudioCall envFailedJob true 300).1 := by
  refine ⟨rfl, ?_, ?_⟩ <;> decide

/-- C8 (amended): when the polled status reaches `FAILED` before the deadline,
`transcribe_audio` raises the failure error carrying the job's failure reason,
and it issues no delete call for either the job or the uploaded payload: the
calls made are exactly the upload and the job start. -/
theorem c8_failed_job_amended (env : TransEnv) (maxWait k : Nat) (r : PollResponse)
    (hput : env.putObjectOk = true) (hstart : env.startJobOk = true)
    (hk : 5 * k < maxWait)
    (hpre : ∀ j, j < k → ∃ q, env.polls j = .ok q
        ∧ q.status ≠ "COMPLETED" ∧ q.status ≠ "FAILED")
    (hit : env.polls k = .ok r) (hst : r.status = "FAILED") :
    transcribeAudioCall env true maxWait =
      ([.putObject ("temp-audio/" ++ ("kubrick-transcribe-" ++ env.jobId) ++ ".mp3"),
        .startJob ("kubrick-transcribe-" ++ env.jobId)],
       .error (.unexpectedWrap (.jobFailed (r.failureReason.getD "Unknown error")))) := by
  have hwait : waitForTranscriptionJob env ("kubrick-transcribe-" ++ env.jobId) maxWait
      = ([], .error (.jobFailed (r.failureReason.getD "Unknown error"))) := by
    refine waitIter_fails env _ maxWait k 0 ((maxWait + 4) / 5) (by omega) ?_ r ?_ hst
    · intro j hj
      simpa using hpre j hj
    · simpa using hit
  simp [transcribeAudioCall, hput, hstart, hwait]

/-- C8 (witness for the amended theorem): the concrete failing job against a
10-second deadline. -/
theorem c8_failed_job_amended_witness :
    transcribeAudioCall envFailedJob true 10 =
      ([.putObject "temp-audio/kubrick-transcribe-j.mp3",
        .startJob "kubrick-transcribe-j"],
       .error (.unexpectedWrap (.jobFailed "Internal failure"))) :=
  c8_failed_job_amended envFailedJob 10 0 ⟨"FAILED", some "Internal failure", ""⟩
    rfl rfl (by norm_num) (fun j hj => absurd hj (by omega)) rfl rfl

/-! ## C1 — fallback getters return an available provider or raise -/

/-- Vision fallback: the result is an available provider or the exhaustion
error, and it succeeds exactly when the primary or the secondary attempt
yields an available provider. -/
theorem visionWF_spec (env : McpEnv) (st : McpSettings) (s : McpState) :
    fallbackSettled "All vision providers unavailable"
      (getVisionProviderWithFallback env st s).2.2
    ∧ exOk (getVisionProviderWithFallback env st s).2.2
        = (visionPrimaryOk env st s || visionSecondaryOk) := by
  rcases hg : getVisionProvider env st s with ⟨s1, r⟩
  rcases r with e | p
  · simp [getVisionProviderWithFallback, visionPrimaryOk, visionSecondaryOk, hg,
          fallbackSettled, attemptAvailable, exOk, initOpenAIVision]
  · cases hp : p.available <;>
      simp [getVisionProviderWithFallback, visionPrimaryOk, visionSecondaryOk, hg, hp,
            fallbackSettled, attemptAvailable, exOk, initOpenAIVision]

/-- Embeddings fallback analogue of `visionWF_spec`. -/
theorem embeddingsWF_spec (env : McpEnv) (st : McpSettings) (s : McpState) :
    fallbackSettled "All embeddings providers unavailable"
      (getEmbeddingsProviderWithFallback env st s).2.2
    ∧ exOk (getEmbeddingsProviderWithFallback env st s).2.2
        = (embeddingsPrimaryOk env st s || embeddingsSecondaryOk) := by
  rcases hg : getEmbeddingsProvider env st s with ⟨s1, r⟩
  rcases r with e | p
  · simp [getEmbeddingsProviderWithFallback, embeddingsPrimaryOk, embeddingsSecondaryOk, hg,
          fallbackSettled, attemptAvailable, exOk, initOpenAIEmbeddings]
  · cases hp : p.available <;>
      simp [getEmbeddingsProviderWithFallback, embeddingsPrimaryOk, embeddingsSecondaryOk, hg, hp,
            fallbackSettled, attemptAvailable, exOk, initOpenAIEmbeddings]

/-- Transcription fallback analogue of `visionWF_spec`. -/
theorem transcriptionWF_spec (env : McpEnv) (st : McpSettings) (s : McpState) :
    fallbackSettled "All transcription providers unavailable"
      (getTranscriptionProviderWithFallback env st s).2.2
    ∧ exOk (getTranscriptionProviderWithFallback env st s).2.2
        = (transcriptionPrimaryOk env st s || transcriptionSecondaryOk env st) := by
  rcases hg : getTranscriptionProvider env st s with ⟨s1, r⟩
  cases hkey : truthy st.OPENAI_API_KEY <;> rcases r with e | p
  · simp [getTranscriptionProviderWithFallback, transcriptionPrimaryOk,
          transcriptionSecondaryOk, hg, hkey, fallbackSettled, attemptAvailable, exOk,
          initOpenAITranscription]
  · cases hp : p.available <;>
      simp [getTranscriptionProviderWithFallback, transcriptionPrimaryOk,
            transcriptionSecondaryOk, hg, hp, hkey, fallbackSettled, attemptAvailable, exOk,
            initOpenAITranscription]
  · cases haws : env.awsTranscribeInitOk <;>
      simp [getTranscriptionProviderWithFallback, transcriptionPrimaryOk,
            transcriptionSecondaryOk, hg, hkey, haws, fallbackSettled, attemptAvailable, exOk,
            initAWSTranscribe]
  · cases haws : env.awsTranscribeInitOk <;> cases hp : p.available <;>
      simp [getTranscriptionProviderWithFallback, transcriptionPrimaryOk,
            transcriptionSecondaryOk, hg, hp, hkey, haws, fallbackSettled, attemptAvailable,
            exOk, initAWSTranscribe]

/-- Chat fallback analogue of `visionWF_spec`: the Groq secondary counts as
constructible only when a truthy `GROQ_API_KEY` is configured. -/
theorem chatWF_spec (env : ApiEnv) (st : ApiSettings) (s : ApiState) :
    fallbackSettled "All chat providers unavailable"
      (getChatProviderWithFallback env st s).2.2
    ∧ exOk (getChatProviderWithFallback env st s).2.2
        = (chatPrimaryOk env st s || chatSecondaryOk st) := by
  rcases hg : getChatProvider env st s with ⟨s1, r⟩
  cases hkey : truthy st.GROQ_API_KEY <;> rcases r with e | p
  · simp [getChatProviderWithFallback, chatPrimaryOk, chatSecondaryOk, hg, hkey,
          fallbackSettled, attemptAvailable, exOk]
  · cases hp : p.available <;>
      simp [getChatProviderWithFallback, chatPrimaryOk, chatSecondaryOk, hg, hp, hkey,
            fallbackSettled, attemptAvailable, exOk]
  · rcases hkv : st.GROQ_API_KEY with _ | kv
    · rw [hkv] at hkey; simp [truthy] at hkey
    · rw [hkv] at hkey
      simp [getChatProviderWithFallback, chatPrimaryOk, chatSecondaryOk, hg, hkey, hkv,
            fallbackSettled, attemptAvailable, exOk, initGroqChat]
  · rcases hkv : st.GROQ_API_KEY with _ | kv
    · rw [hkv] at hkey; simp [truthy] at hkey
    · rw [hkv] at hkey
      cases hp : p.available <;>
        simp [getChatProviderWithFallback, chatPrimaryOk, chatSecondaryOk, hg, hp, hkey, hkv,
              fallbackSettled, attemptAvailable, exOk, initGroqChat]

/-- C1: for every capability, the fallback getter either returns a provider
whose `is_available()` is true or raises the exhaustion error
`ProviderUnavailableError("all", "All <capability> providers unavailable")`
(never anything else), and it succeeds exactly when the primary attempt or the
secondary attempt yields an available provider. -/
theorem c1_fallback_available_or_raise
    (menv : McpEnv) (mst : McpSettings) (ms : McpState)
    (aenv : ApiEnv) (ast : ApiSettings) (sa : ApiState) :
    (fallbackSettled "All vision providers unavailable"
        (getVisionProviderWithFallback menv mst ms).2.2
      ∧ exOk (getVisionProviderWithFallback menv mst ms).2.2
          = (visionPrimaryOk menv mst ms || visionSecondaryOk))
    ∧ (fallbackSettled "All embeddings providers unavailable"
        (getEmbeddingsProviderWithFallback menv mst ms).2.2
      ∧ exOk (getEmbeddingsProviderWithFallback menv mst ms).2.2
          = (embeddingsPrimaryOk menv mst ms || embeddingsSecondaryOk))
    ∧ (fallbackSettled "All transcription providers unavailable"
        (getTranscriptionProviderWithFallback menv mst ms).2.2
      ∧ exOk (getTranscriptionProviderWithFallback menv mst ms).2.2
          = (transcriptionPrimaryOk menv mst ms || transcriptionSecondaryOk menv mst))
    ∧ (fallbackSettled "All chat providers unavailable"
        (getChatProviderWithFallback aenv ast sa).2.2
      ∧ exOk (getChatProviderWithFallback aenv ast sa).2.2
          = (chatPrimaryOk aenv ast sa || chatSecondaryOk ast)) :=
  ⟨visionWF_spec menv mst ms, embeddingsWF_spec menv mst ms,
   transcriptionWF_spec menv mst ms, chatWF_spec aenv ast sa⟩

/-! ## C2 — plain getters on initialization failure -/

/-- C2 (counterexample): with Bedrock selected and its `initialize()` failing,
`get_vision_provider` does propagate the error, but the cache slot does *not*
remain empty: it holds the constructed-but-uninitialized Bedrock instance, and
a second call returns that broken instance from the cache instead of
re-attempting construction. -/
theorem c2_cache_not_empty_counterexample :
    (getVisionProvider mcpAllInitFail mcpBedrockSettings {}).2
        = .error (.initError "bedrock" "Failed to initialize")
    ∧ (getVisionProvider mcpAllInitFail mcpBedrockSettings {}).1.visionProvider
        = some ⟨.bedrockVision, false⟩
    ∧ getVisionProvider mcpAllInitFail mcpBedrockSettings
        (getVisionProvider mcpAllInitFail mcpBedrockSettings {}).1
        = ((getVisionProvider mcpAllInitFail mcpBedrockSettings {}).1,
           .ok ⟨.bedrockVision, false⟩) :=
  ⟨rfl, rfl, rfl⟩

/-- C2 (amended): for every capability, when the cache slot is empty and the
configured primary provider's `initialize()` fails, the plain getter
propagates the initialization error, but the slot is left holding the
constructed-but-uninitialized instance (the assignment happens before
`initialize()` is awaited), and a subsequent call returns that unavailable
instance from the cache without re-attempting construction or
initialization. -/
theorem c2_error_propagates_cache_retains_instance :
    (∀ (env : McpEnv) (st : McpSettings) (s : McpState),
      s.visionProvider = none → pyLower st.VISION_PROVIDER = "bedrock" →
      env.bedrockVisionInitOk = false →
        (getVisionProvider env st s).2 = .error (.initError "bedrock" "Failed to initialize")
        ∧ (getVisionProvider env st s).1.visionProvider = some ⟨.bedrockVision, false⟩
        ∧ getVisionProvider env st (getVisionProvider env st s).1
            = ((getVisionProvider env st s).1, .ok ⟨.bedrockVision, false⟩))
    ∧ (∀ (env : McpEnv) (st : McpSettings) (s : McpState),
      s.embeddingsProvider = none → pyLower st.EMBEDDINGS_PROVIDER = "bedrock" →
      env.bedrockEmbeddingsInitOk = false →
        (getEmbeddingsProvider env st s).2 = .error (.initError "bedrock" "Failed to initialize")
        ∧ (getEmbeddingsProvider env st s).1.embeddingsProvider = some ⟨.bedrockEmbeddings, false⟩
        ∧ getEmbeddingsProvider env st (getEmbeddingsProvider env st s).1
            = ((getEmbeddingsProvider env st s).1, .ok ⟨.bedrockEmbeddings, false⟩))
    ∧ (∀ (env : McpEnv) (st : McpSettings) (s : McpState),
      s.transcriptionProvider = none → truthy st.OPENAI_API_KEY = false →
      env.awsTranscribeInitOk = false →
        (getTranscriptionProvider env st s).2
            = .error (.initError "aws-transcribe" "Failed to initialize")
        ∧ (getTranscriptionProvider env st s).1.transcriptionProvider
            = some ⟨.awsTranscribe, false⟩
        ∧ getTranscriptionProvider env st (getTranscriptionProvider env st s).1
            = ((getTranscriptionProvider env st s).1, .ok ⟨.awsTranscribe, false⟩))
    ∧ (∀ (env : ApiEnv) (st : ApiSettings) (s : ApiState),
      s.chatProvider = none → pyLower st.AGENT_PROVIDER = "bedrock" →
      env.bedrockChatInitOk = false →
        (getChatProvider env st s).2 = .error (.initError "bedrock" "Failed to initialize")
        ∧ (getChatProvider env st s).1.chatProvider = some ⟨.bedrockChat, false⟩
        ∧ getChatProvider env st (getChatProvider env st s).1
            = ((getChatProvider env st s).1, .ok ⟨.bedrockChat, false⟩)) := by
  refine ⟨?_, ?_, ?_, ?_⟩
  · intro env st s hs hsel hfail
    have h1 : getVisionProvider env st s
        = ({ s with visionProvider := some ⟨.bedrockVision, false⟩ },
           .error (.initError "bedrock" "Failed to initialize")) := by
      simp [getVisionProvider, hs, hsel, providerTypeOf, initBedrockVision, hfail]
    refine ⟨by rw [h1], by rw [h1], ?_⟩
    rw [h1]
    simp [getVisionProvider]
  · intro env st s hs hsel hfail
    have h1 : getEmbeddingsProvider env st s
        = ({ s with embeddingsProvider := some ⟨.bedrockEmbeddings, false⟩ },
           .error (.initError "bedrock" "Failed to initialize")) := by
      simp [getEmbeddingsProvider, hs, hsel, providerTypeOf, initBedrockEmbeddings, hfail]
    refine ⟨by rw [h1], by rw [h1], ?_⟩
    rw [h1]
    simp [getEmbeddingsProvider]
  · intro env st s hs hkey hfail
    have h1 : getTranscriptionProvider env st s
        = ({ s with transcriptionProvider := some ⟨.awsTranscribe, false⟩ },
           .error (.initError "aws-transcribe" "Failed to initialize")) := by
      simp [getTranscriptionProvider, hs, hkey, initAWSTranscribe, hfail]
    refine ⟨by rw [h1], by rw [h1], ?_⟩
    rw [h1]
    simp [getTranscriptionProvider]
  · intro env st s hs hsel hfail
    have h1 : getChatProvider env st s
        = ({ s with chatProvider := some ⟨.bedrockChat, false⟩ },
           .error (.initError "bedrock" "Failed to initialize")) := by
      simp [getChatProvider, hs, hsel, agentProviderTypeOf, initBedrockChat, hfail]
    refine ⟨by rw [h1], by rw [h1], ?_⟩
    rw [h1]
    simp [getChatProvider]

/-- C2 (witness for the amended theorem at a concrete input). -/
theorem c2_amended_witness :
    (getVisionProvider mcpAllInitFail mcpBedrockSettings {}).1.visionProvider
      = some ⟨.bedrockVision, false⟩ :=
  (c2_error_propagates_cache_retains_instance.1 mcpAllInitFail mcpBedrockSettings {}
    rfl rfl rfl).2.1

/-! ## C3 — fallback substitution and the cache -/

/-- C3 (counterexample): a fallback call on an empty cache with a failing
Bedrock primary substitutes the OpenAI secondary, yet the vision cache slot is
*not* left unchanged — it goes from `None` to the failed Bedrock instance
during the call. -/
theorem c3_slot_changed_counterexample :
    (getVisionProviderWithFallback mcpAllInitFail mcpBedrockSettings {}).2.2
        = .ok ⟨.openaiVision, true⟩
    ∧ ({} : McpState).visionProvider = none
    ∧ (getVisionProviderWithFallback mcpAllInitFail mcpBedrockSettings {}).1.visionProvider
        = some ⟨.bedrockVision, false⟩ :=
  ⟨rfl, rfl, rfl⟩

/-- C3 (amended): the fallback getter never writes the secondary instance into
the cache — its only cache effect is that of the plain primary getter it
invokes; in particular, when the slot was already populated with `p` the call
leaves the state unchanged and a later plain getter still returns `p`.  (When
the slot was empty and the primary's `initialize()` failed inside the call,
the slot ends up holding that failed primary instance, not the secondary.) -/
theorem c3_fallback_never_writes_secondary :
    (∀ (env : McpEnv) (st : McpSettings) (s : McpState),
      (getVisionProviderWithFallback env st s).1 = (getVisionProvider env st s).1)
    ∧ (∀ (env : McpEnv) (st : McpSettings) (s : McpState),
      (getEmbeddingsProviderWithFallback env st s).1 = (getEmbeddingsProvider env st s).1)
    ∧ (∀ (env : McpEnv) (st : McpSettings) (s : McpState),
      (getTranscriptionProviderWithFallback env st s).1 = (getTranscriptionProvider env st s).1)
    ∧ (∀ (env : ApiEnv) (st : ApiSettings) (s : ApiState),
      (getChatProviderWithFallback env st s).1 = (getChatProvider env st s).1)
    ∧ (∀ (env : McpEnv) (st : McpSettings) (s : McpState) (p : ProviderInst),
      s.visionProvider = some p →
        (getVisionProviderWithFallback env st s).1 = s
        ∧ getVisionProvider env st s = (s, .ok p))
    ∧ (∀ (env : McpEnv) (st : McpSettings) (s : McpState) (p : ProviderInst),
      s.embeddingsProvider = some p →
        (getEmbeddingsProviderWithFallback env st s).1 = s
        ∧ getEmbeddingsProvider env st s = (s, .ok p))
    ∧ (∀ (env : McpEnv) (st : McpSettings) (s : McpState) (p : ProviderInst),
      s.transcriptionProvider = some p →
        (getTranscriptionProviderWithFallback env st s).1 = s
        ∧ getTranscriptionProvider env st s = (s, .ok p))
    ∧ (∀ (env : ApiEnv) (st : ApiSettings) (s : ApiState) (p : ProviderInst),
      s.chatProvider = some p →
        (getChatProviderWithFallback env st s).1 = s
        ∧ getChatProvider env st s = (s, .ok p)) := by
  refine ⟨?_, ?_, ?_, ?_, ?_, ?_, ?_, ?_⟩
  · intro env st s
    rcases hg : getVisionProvider env st s with ⟨s1, r⟩
    rcases r with e | p
    · simp [getVisionProviderWithFallback, hg, initOpenAIVision]
    · cases hp : p.available <;>
        simp [getVisionProviderWithFallback, hg, hp, initOpenAIVision]
  · intro env st s
    rcases hg : getEmbeddingsProvider env st s with ⟨s1, r⟩
    rcases r with e | p
    · simp [getEmbeddingsProviderWithFallback, hg, initOpenAIEmbeddings]
    · cases hp : p.available <;>
        simp [getEmbeddingsProviderWithFallback, hg, hp, initOpenAIEmbeddings]
  · intro env st s
    rcases hg : getTranscriptionProvider env st s with ⟨s1, r⟩
    cases hkey : truthy st.OPENAI_API_KEY <;> rcases r with e | p
    · simp [getTranscriptionProviderWithFallback, hg, hkey, initOpenAITranscription]
    · cases hp : p.available <;>
        simp [getTranscriptionProviderWithFallback, hg, hp, hkey, initOpenAITranscription]
    · cases haws : env.awsTranscribeInitOk <;>
        simp [getTranscriptionProviderWithFallback, hg, hkey, haws, initAWSTranscribe]
    · cases haws : env.awsTranscribeInitOk <;> cases hp : p.available <;>
        simp [getTranscriptionProviderWithFallback, hg, hp, hkey, haws, initAWSTranscribe]
  · intro env st s
    rcases hg : getChatProvider env st s with ⟨s1, r⟩
    cases hkey : truthy st.GROQ_API_KEY <;> rcases r with e | p
    · simp [getChatProviderWithFallback, hg, hkey]
    · cases hp : p.available <;> simp [getChatProviderWithFallback, hg, hp, hkey]
    · rcases hkv : st.GROQ_API_KEY with _ | kv
      · rw [hkv] at hkey; simp [truthy] at hkey
      · rw [hkv] at hkey
        simp [getChatProviderWithFallback, hg, hkey, hkv, initGroqChat]
    · rcases hkv : st.GROQ_API_KEY with _ | kv
      · rw [hkv] at hkey; simp [truthy] at hkey
      · rw [hkv] at hkey
        cases hp : p.available <;>
          simp [getChatProviderWithFallback, hg, hp, hkey, hkv, initGroqChat]
  · intro env st s p h
    have h1 : getVisionProvider env st s = (s, .ok p) := by simp [getVisionProvider, h]
    refine ⟨?_, h1⟩
    cases hp : p.available <;>
      simp [getVisionProviderWithFallback, h1, hp, initOpenAIVision]
  · intro env st s p h
    have h1 : getEmbeddingsProvider env st s = (s, .ok p) := by simp [getEmbeddingsProvider, h]
    refine ⟨?_, h1⟩
    cases hp : p.available <;>
      simp [getEmbeddingsProviderWithFallback, h1, hp, initOpenAIEmbeddings]
  · intro env st s p h
    have h1 : getTranscriptionProvider env st s = (s, .ok p) := by
      simp [getTranscriptionProvider, h]
    refine ⟨?_, h1⟩
    cases hkey : truthy st.OPENAI_API_KEY <;> cases hp : p.available <;>
      cases haws : env.awsTranscribeInitOk <;>
      simp [getTranscriptionProviderWithFallback, h1, hp, hkey, haws,
            initOpenAITranscription, initAWSTranscribe]
  · intro env st s p h
    have h1 : getChatProvider env st s = (s, .ok p) := by simp [getChatProvider, h]
    refine ⟨?_, h1⟩
    cases hp : p.available
    · cases hkey : truthy st.GROQ_API_KEY
      · simp [getChatProviderWithFallback, h1, hp, hkey]
      · rcases hkv : st.GROQ_API_KEY with _ | kv
        · rw [hkv] at hkey; simp [truthy] at hkey
        · rw [hkv] at hkey
          simp [getChatProviderWithFallback, h1, hp, hkey, hkv, initGroqChat]
    · simp [getChatProviderWithFallback, h1, hp]

/-- C3 (witness for the amended theorem): a populated slot is preserved across
a fallback call. -/
theorem c3_amended_witness :
    (getVisionProviderWithFallback mcpAllInitFail mcpBedrockSettings
        { visionProvider := some ⟨.bedrockVision, true⟩ }).1
      = { visionProvider := some ⟨.bedrockVision, true⟩ } :=
  (c3_fallback_never_writes_secondary.2.2.2.2.1 mcpAllInitFail mcpBedrockSettings
    { visionProvider := some ⟨.bedrockVision, true⟩ } ⟨.bedrockVision, true⟩ rfl).1

/-! ## C4 — credential gating of the secondary attempt -/

/-- C4 (counterexample): `OPENAI_API_KEY` is absent, yet the vision fallback
still constructs and initializes the OpenAI secondary (a secondary-attempt
event is recorded) and even returns it. -/
theorem c4_secondary_attempted_counterexample :
    mcpBedrockSettings.OPENAI_API_KEY = none
    ∧ (getVisionProviderWithFallback mcpAllInitFail mcpBedrockSettings {}).2.1
        = [.secondaryAttempt .openaiVision]
    ∧ (getVisionProviderWithFallback mcpAllInitFail mcpBedrockSettings {}).2.2
        = .ok ⟨.openaiVision, true⟩ :=
  ⟨rfl, rfl, rfl⟩

/-- C4 (amended): only the chat fallback gates its secondary on the
credential — with a falsy `GROQ_API_KEY` no Groq secondary attempt is made.
The vision and embeddings fallbacks attempt the OpenAI secondary whenever the
primary attempt is not available, regardless of `OPENAI_API_KEY`; and the
transcription fallback with an absent OpenAI key still attempts the OpenAI
secondary. -/
theorem c4_secondary_gating :
    (∀ (env : ApiEnv) (st : ApiSettings) (s : ApiState),
      truthy st.GROQ_API_KEY = false → (getChatProviderWithFallback env st s).2.1 = [])
    ∧ (∀ (env : McpEnv) (st : McpSettings) (s : McpState),
      attemptAvailable (getVisionProvider env st s).2 = false →
        (getVisionProviderWithFallback env st s).2.1 = [.secondaryAttempt .openaiVision])
    ∧ (∀ (env : McpEnv) (st : McpSettings) (s : McpState),
      attemptAvailable (getEmbeddingsProvider env st s).2 = false →
        (getEmbeddingsProviderWithFallback env st s).2.1
          = [.secondaryAttempt .openaiEmbeddings])
    ∧ (∀ (env : McpEnv) (st : McpSettings) (s : McpState),
      st.OPENAI_API_KEY = none →
      attemptAvailable (getTranscriptionProvider env st s).2 = false →
        (getTranscriptionProviderWithFallback env st s).2.1
          = [.secondaryAttempt .openaiTranscription]) := by
  refine ⟨?_, ?_, ?_, ?_⟩
  · intro env st s hkey
    rcases hg : getChatProvider env st s with ⟨s1, r⟩
    rcases r with e | p
    · simp [getChatProviderWithFallback, hg, hkey]
    · cases hp : p.available <;> simp [getChatProviderWithFallback, hg, hp, hkey]
  · intro env st s hprim
    rcases hg : getVisionProvider env st s with ⟨s1, r⟩
    rw [hg] at hprim
    rcases r with e | p
    · simp [getVisionProviderWithFallback, hg, initOpenAIVision]
    · simp only [attemptAvailable] at hprim
      simp [getVisionProviderWithFallback, hg, hprim, initOpenAIVision]
  · intro env st s hprim
    rcases hg : getEmbeddingsProvider env st s with ⟨s1, r⟩
    rw [hg] at hprim
    rcases r with e | p
    · simp [getEmbeddingsProviderWithFallback, hg, initOpenAIEmbeddings]
    · simp only [attemptAvailable] at hprim
      simp [getEmbeddingsProviderWithFallback, hg, hprim, initOpenAIEmbeddings]
  · intro env st s hkey hprim
    have hkeyt : truthy st.OPENAI_API_KEY = false := by simp [hkey, truthy]
    rcases hg : getTranscriptionProvider env st s with ⟨s1, r⟩
    rw [hg] at hprim
    rcases r with e | p
    · simp [getTranscriptionProviderWithFallback, hg, hkeyt, initOpenAITranscription]
    · simp only [attemptAvailable] at hprim
      simp [getTranscriptionProviderWithFallback, hg, hprim, hkeyt, initOpenAITranscription]

/-- C4 (witness for the amended theorem): with no Groq key configured the chat
fallback records no secondary attempt. -/
theorem c4_gating_witness :
    (getChatProviderWithFallback ⟨true⟩ ⟨"groq", none⟩ {}).2.1 = [] :=
  c4_secondary_gating.1 ⟨true⟩ ⟨"groq", none⟩ {} rfl
